import Mathlib

/-!
Shallow embedding of the image-generation core of the repository
(src/images/generation/model.py, match.py, utils.py): the layered-canvas
data model (Component / Background / BaseImage), the text-layout origin
arithmetic, the flatten (fabricate) pipeline, the asset/error threading of
the Match card, and the serialization contract.  Machine values are
modelled with Nat/Int (Python ints are unbounded); fallible Python code is
modelled with Except / explicit outcome types; an uncaught Python
exception is modelled by the `raised` outcome.
-/

/-- One RGBA sample of a raster buffer (PIL pixel). -/
structure RGBAPixel where
  r : Nat
  g : Nat
  b : Nat
  a : Nat
deriving DecidableEq, Repr

/-- The PIL image modes the source distinguishes in has_transparency:
palette mode "P", "RGBA", and every other mode. -/
inductive PyMode where
  | P
  | RGBA
  | other
deriving DecidableEq, Repr

/-- An in-memory PIL raster: mode, dimensions, the optional
info["transparency"] entry (some v iff the key is present with a non-None
value), the palette table and per-pixel palette indices (mode P), and the
row-major RGBA samples (mode RGBA). -/
structure PILImage where
  mode : PyMode
  width : Nat
  height : Nat
  transparencyInfo : Option Int
  palette : List RGBAPixel
  palettePixels : List Nat
  pixels : List RGBAPixel
deriving DecidableEq, Repr

/-- Image.new("RGBA", (w, h), (0, 0, 0, 0)): a fully transparent blank. -/
def newRGBA (w h : Nat) : PILImage :=
  { mode := .RGBA, width := w, height := h, transparencyInfo := none,
    palette := [], palettePixels := [],
    pixels := List.replicate (w * h) ⟨0, 0, 0, 0⟩ }

/-- img.getcolors() in the palette branch: the distinct palette indices
present among the image's pixels (the source only inspects the color of
each (count, color) pair). -/
def getcolors (img : PILImage) : List Nat :=
  img.palettePixels.dedup

/-- img.getextrema()[3][0] for an RGBA buffer: the minimum alpha sample
(255 on an empty buffer). -/
def minAlpha (img : PILImage) : Nat :=
  (img.pixels.map RGBAPixel.a).foldr min 255

/-- Component.has_transparency (model.py 246-258): returns True as soon as
info carries a "transparency" entry; otherwise, in mode "P" it rescans the
(necessarily absent) entry with default -1 and looks for a pixel color
equal to it, in mode "RGBA" it checks for an alpha extremum below 255, and
returns False in every remaining case. -/
def has_transparency (img : PILImage) : Bool :=
  if img.transparencyInfo.isSome then true
  else if img.mode = .P then
    let transparent : Int := img.transparencyInfo.getD (-1)
    (getcolors img).any (fun index => decide ((index : Int) = transparent))
  else if img.mode = .RGBA then
    decide (minAlpha img < 255)
  else false

/-- Modelled from the spec (for comparison with has_transparency): "true if
the buffer carries a palette transparency index actually used by a pixel,
or if it is RGBA with any alpha sample below fully opaque". -/
def spec_has_transparency (img : PILImage) : Bool :=
  (match img.transparencyInfo with
   | some t => img.palettePixels.any (fun index => decide ((index : Int) = t))
   | none => false)
  || (if img.mode = .RGBA then decide (minAlpha img < 255) else false)

/-- A text box ((x1, y1), (x2, y2)). -/
abbrev TextBox := (Int × Int) × (Int × Int)

/-- The draw-origin arithmetic shared verbatim by Component.write
(model.py 315-328) and BaseImage.write (model.py 455-468): horizontal
origin from the alignment mode (Python match/case with a catch-all default
of x1), vertical origin always box-centered; Python // is floor division
(Int.fdiv). -/
def writeOrigin (textbox_pos : TextBox) (text_width text_height : Int)
    (align : String) : Int × Int :=
  let x1 := textbox_pos.1.1
  let y1 := textbox_pos.1.2
  let x2 := textbox_pos.2.1
  let y2 := textbox_pos.2.2
  let x : Int :=
    if align = "right" then x2 - text_width
    else if align = "center" then x1 + (x2 - x1 - text_width).fdiv 2
    else x1
  let y : Int := y1 + (y2 - y1 - text_height).fdiv 2
  (x, y)

/-- Component.write (model.py 312): textbox_pos = textbox_pos or
((0, 0), (self.img.width, self.img.height)); a tuple is always truthy in
Python, so exactly the omitted/None argument selects the full-raster
default. -/
def Component.writeBox (img_width img_height : Nat)
    (textbox_pos : Option TextBox) : TextBox :=
  match textbox_pos with
  | none => ((0, 0), ((img_width : Int), (img_height : Int)))
  | some b => b

/-- BaseImage.write (model.py 437): the parameter default of textbox_pos
is the literal ((0, 0), (0, 0)), not the full raster; the target raster's
dimensions are never consulted. -/
def BaseImage.writeBox (bg_width bg_height : Nat)
    (textbox_pos : Option TextBox) : TextBox :=
  match textbox_pos with
  | none => ((0, 0), (0, 0))
  | some b => b

/-- C3: for every text box and measured text size, the horizontal draw
origin is x2 - text_width for "right", x1 + (x2 - x1 - text_width) // 2
for "center", and x1 for every other alignment string; the vertical origin
is always y1 + (y2 - y1 - text_height) // 2; and the concrete instances of
the claim (box ((0,0),(200,50)), width 40, height 20) give x = 0 / 80 /
160 and y = 15. -/
theorem c3_text_alignment :
    (∀ x1 y1 x2 y2 tw th : Int,
      writeOrigin ((x1, y1), (x2, y2)) tw th "right"
        = (x2 - tw, y1 + (y2 - y1 - th).fdiv 2)
      ∧ writeOrigin ((x1, y1), (x2, y2)) tw th "center"
        = (x1 + (x2 - x1 - tw).fdiv 2, y1 + (y2 - y1 - th).fdiv 2)
      ∧ ∀ s : String, s ≠ "right" → s ≠ "center" →
          writeOrigin ((x1, y1), (x2, y2)) tw th s
            = (x1, y1 + (y2 - y1 - th).fdiv 2))
    ∧ writeOrigin ((0, 0), (200, 50)) 40 20 "left" = (0, 15)
    ∧ writeOrigin ((0, 0), (200, 50)) 40 20 "center" = (80, 15)
    ∧ writeOrigin ((0, 0), (200, 50)) 40 20 "right" = (160, 15) := by
  refine ⟨fun x1 y1 x2 y2 tw th => ⟨?_, ?_, ?_⟩, by decide, by decide, by decide⟩
  · simp [writeOrigin]
  · simp [writeOrigin]
  · intro s hr hc
    simp [writeOrigin, hr, hc]

/-- Witness for C3: an unrecognized alignment string falls back to the
left origin x1 = 0 on the claim's concrete box. -/
theorem c3_text_alignment_witness :
    writeOrigin ((0, 0), (200, 50)) 40 20 "top" = (0, 15) := by
  have h := (c3_text_alignment.1 0 0 200 50 40 20).2.2 "top"
    (by decide) (by decide)
  exact h.trans (by decide)

/-- A component (model.py Component): an owned copy of a raster plus an
integer position on the parent canvas and a diagnostic name. -/
structure Component where
  img : PILImage
  x : Int
  y : Int
  name : String
deriving DecidableEq, Repr

/-- Component.set_center_x: self.x = (parent_width - self.img.width) // 2
(Python floor division). -/
def Component.set_center_x (c : Component) (parent_width : Int) : Component :=
  { c with x := (parent_width - (c.img.width : Int)).fdiv 2 }

/-- Component.set_center_y: self.y = (parent_height - self.img.height) // 2. -/
def Component.set_center_y (c : Component) (parent_height : Int) : Component :=
  { c with y := (parent_height - (c.img.height : Int)).fdiv 2 }

/-- Component.set_relative_center_x: self.set_center_x(2 * dependent.x +
dependent.width). -/
def Component.set_relative_center_x (c dependent : Component) : Component :=
  c.set_center_x (2 * dependent.x + (dependent.img.width : Int))

/-- Component.set_relative_center_y: self.set_center_y(2 * dependent.y +
dependent.height). -/
def Component.set_relative_center_y (c dependent : Component) : Component :=
  c.set_center_y (2 * dependent.y + (dependent.img.height : Int))

/-- An all-opaque RGBA raster of the given size, used to build concrete
components in closed instances. -/
def mkImg (w h : Nat) : PILImage :=
  { mode := .RGBA, width := w, height := h, transparencyInfo := none,
    palette := [], palettePixels := [],
    pixels := List.replicate (w * h) ⟨0, 0, 0, 255⟩ }

/-- A concrete component of the given raster size at the given position. -/
def mkComp (w h : Nat) (x y : Int) : Component :=
  ⟨mkImg w h, x, y, "untitled"⟩

/-- C5: set_relative_center_x(d) coincides with set_center_x(2*d.x +
d.width) and computes x = (2*d.x + d.width - width) // 2 (floor), and
symmetrically on the y axis, for all components; plus three concrete
(d.x, d.width, c.width) triples. -/
theorem c5_relative_center :
    (∀ c d : Component,
      (c.set_relative_center_x d).x
          = (c.set_center_x (2 * d.x + (d.img.width : Int))).x
      ∧ (c.set_relative_center_x d).x
          = (2 * d.x + (d.img.width : Int) - (c.img.width : Int)).fdiv 2
      ∧ (c.set_relative_center_y d).y
          = (c.set_center_y (2 * d.y + (d.img.height : Int))).y
      ∧ (c.set_relative_center_y d).y
          = (2 * d.y + (d.img.height : Int) - (c.img.height : Int)).fdiv 2)
    ∧ ((mkComp 30 1 0 0).set_relative_center_x (mkComp 50 1 10 0)).x = 20
    ∧ ((mkComp 40 1 5 0).set_relative_center_x (mkComp 100 1 0 0)).x = 30
    ∧ ((mkComp 10 1 0 0).set_relative_center_x (mkComp 33 1 7 0)).x = 18 := by
  refine ⟨fun c d => ⟨rfl, ?_, rfl, ?_⟩, by decide, by decide, by decide⟩
  · simp [Component.set_relative_center_x, Component.set_center_x, sub_sub]
  · simp [Component.set_relative_center_y, Component.set_center_y, sub_sub]

/-- A P-mode buffer whose info carries the transparency index 5 while no
pixel uses index 5: the first check of has_transparency fires anyway. -/
def paletteKeyUnused : PILImage :=
  { mode := .P, width := 3, height := 1, transparencyInfo := some 5,
    palette := [⟨255, 0, 0, 255⟩, ⟨0, 255, 0, 255⟩],
    palettePixels := [0, 1, 0], pixels := [] }

/-- Counterexample for C6: the code reports transparency for a buffer
whose palette transparency index is used by no pixel (and which is not
RGBA), while the claimed predicate is false there. -/
theorem c6_counterexample :
    has_transparency paletteKeyUnused = true
    ∧ spec_has_transparency paletteKeyUnused = false := by
  exact ⟨rfl, rfl⟩

/-- No natural palette index can equal the -1 default the palette scan
compares against. -/
theorem natCast_index_ne_negOne (n : Nat) :
    decide ((n : Int) = (-1 : Int)) = false := by
  rw [decide_eq_false_iff_not]
  omega

/-- The palette scan over any index list with the -1 default finds
nothing. -/
theorem any_index_negOne (l : List Nat) :
    (l.any fun index => decide ((index : Int) = (-1 : Int))) = false := by
  induction l with
  | nil => rfl
  | cons a t ih =>
    rw [List.any_cons, natCast_index_ne_negOne, ih]
    rfl

/-- C6 amended: has_transparency is true iff the buffer's info carries a
transparency entry at all (whether or not any pixel uses it), or the
buffer is RGBA with some alpha sample below 255; the palette scan runs
only when the entry is absent and then compares indices against -1, so it
never contributes. -/
theorem c6_amended (img : PILImage) :
    has_transparency img
      = (img.transparencyInfo.isSome
          || (if img.mode = .RGBA then decide (minAlpha img < 255)
              else false)) := by
  unfold has_transparency
  cases h : img.transparencyInfo with
  | some t => simp [h]
  | none =>
    by_cases hp : img.mode = .P
    · simp [h, hp, any_index_negOne]
    · by_cases hr : img.mode = .RGBA
      · simp [h, hp, hr]
      · simp [h, hp, hr]

/-- Palette lookup during img.convert("RGBA") of a P-mode buffer: the
entry for the transparency index becomes fully transparent. -/
def paletteLookup (img : PILImage) (i : Nat) : RGBAPixel :=
  let base := img.palette.getD i ⟨0, 0, 0, 255⟩
  match img.transparencyInfo with
  | some t => if (i : Int) = t then { base with a := 0 } else base
  | none => base

/-- top.convert("RGBA") (model.py 374): an RGBA buffer is returned as is;
any other mode is expanded to RGBA samples through the palette. -/
def convertRGBA (img : PILImage) : PILImage :=
  if img.mode = .RGBA then img
  else
    { img with
      mode := .RGBA
      palettePixels := []
      pixels := img.palettePixels.map (paletteLookup img) }

/-- dest.paste(top, (px, py)) without a mask: each destination pixel
covered by top (after silent clipping at the canvas bounds) is fully
overwritten by the corresponding top sample; every other pixel keeps its
value. -/
def pastePlain (dest top : PILImage) (px py : Int) : PILImage :=
  { dest with pixels := (List.range (dest.width * dest.height)).map (fun i =>
      let dx : Int := (i % dest.width : Nat)
      let dy : Int := (i / dest.width : Nat)
      let sx := dx - px
      let sy := dy - py
      if 0 ≤ sx ∧ sx < (top.width : Int) ∧ 0 ≤ sy ∧ sy < (top.height : Int) then
        top.pixels.getD (sy.toNat * top.width + sx.toNat) ⟨0, 0, 0, 0⟩
      else dest.pixels.getD i ⟨0, 0, 0, 0⟩) }

/-- One channel of PIL's masked paste: out = (top*a + dest*(255 - a)) / 255
with the top sample's alpha as the mask value. -/
def blendChannel (t d a : Nat) : Nat :=
  (t * a + d * (255 - a)) / 255

/-- One pixel of dest.paste(top, pos, alpha) where alpha = top.split()[3]:
every channel is blended by the top sample's own alpha. -/
def blendPixel (t d : RGBAPixel) : RGBAPixel :=
  ⟨blendChannel t.r d.r t.a, blendChannel t.g d.g t.a,
   blendChannel t.b d.b t.a, blendChannel t.a d.a t.a⟩

/-- dest.paste(top, (px, py), alpha) with alpha = top.split()[3]
(model.py 375-376): covered pixels are alpha-blended with what is already
painted, out-of-bounds parts are silently clipped. -/
def pasteMask (dest top : PILImage) (px py : Int) : PILImage :=
  { dest with pixels := (List.range (dest.width * dest.height)).map (fun i =>
      let dx : Int := (i % dest.width : Nat)
      let dy : Int := (i / dest.width : Nat)
      let sx := dx - px
      let sy := dy - py
      if 0 ≤ sx ∧ sx < (top.width : Int) ∧ 0 ≤ sy ∧ sy < (top.height : Int) then
        blendPixel (top.pixels.getD (sy.toNat * top.width + sx.toNat) ⟨0, 0, 0, 0⟩)
          (dest.pixels.getD i ⟨0, 0, 0, 0⟩)
      else dest.pixels.getD i ⟨0, 0, 0, 0⟩) }

/-- A canvas (model.py Background): the owned base raster, its dimensions,
a diagnostic name and the ordered overlay list (insertion order is paint
order). -/
structure Background where
  image : PILImage
  width : Nat
  height : Nat
  name : String
  overlays : List Component
deriving DecidableEq, Repr

/-- Background.add_overlay: appends to the paint-order list. -/
def Background.add_overlay (c : Background) (overlay : Component) : Background :=
  { c with overlays := c.overlays ++ [overlay] }

/-- The loop body of Background.fabricate (model.py 370-378): walk the
overlays in insertion order, masking with the overlay's own alpha channel
when it has transparency and doing a plain overwrite otherwise, threading
the mutable local final_image. -/
def fabricateLoop (final_image : PILImage) : List Component → PILImage
  | [] => final_image
  | overlay :: rest =>
    let top := overlay.img
    if has_transparency top then
      fabricateLoop (pasteMask final_image (convertRGBA top) overlay.x overlay.y) rest
    else
      fabricateLoop (pastePlain final_image top overlay.x overlay.y) rest

/-- Background.fabricate (model.py 368-380): final_image =
self.image.copy(), then the paste loop, then return final_image; the
canvas itself is left as it was (the second component of the result is
the state of the canvas after the call). -/
def Background.fabricate (c : Background) : PILImage × Background :=
  (fabricateLoop c.image c.overlays, c)

/-- The fabricate loop is the left fold of the per-overlay paste step over
the insertion-ordered overlay list. -/
theorem fabricateLoop_eq_foldl (base : PILImage) (l : List Component) :
    fabricateLoop base l = l.foldl (fun acc ov =>
      if has_transparency ov.img then
        pasteMask acc (convertRGBA ov.img) ov.x ov.y
      else pastePlain acc ov.img ov.x ov.y) base := by
  induction l generalizing base with
  | nil => rfl
  | cons a t ih =>
    simp only [fabricateLoop, List.foldl_cons]
    by_cases h : has_transparency a.img
    · rw [if_pos h, if_pos h, ih]
    · rw [if_neg h, if_neg h, ih]

/-- C4: fabricate returns the fold, in insertion order, of the paste step
(alpha-masked exactly when has_transparency holds, plain overwrite
otherwise) started from the base image, and leaves the canvas — in
particular its base image — unchanged; appending one more overlay paints
it last, on top of the previous composite. -/
theorem c4_fabricate :
    (∀ c : Background,
      (Background.fabricate c).2 = c
      ∧ (Background.fabricate c).2.image = c.image
      ∧ (Background.fabricate c).1 = c.overlays.foldl (fun acc ov =>
          if has_transparency ov.img then
            pasteMask acc (convertRGBA ov.img) ov.x ov.y
          else pastePlain acc ov.img ov.x ov.y) c.image)
    ∧ ∀ (c : Background) (ov : Component),
        (Background.fabricate (c.add_overlay ov)).1 =
          (if has_transparency ov.img then
            pasteMask (Background.fabricate c).1 (convertRGBA ov.img) ov.x ov.y
          else pastePlain (Background.fabricate c).1 ov.img ov.x ov.y) := by
  constructor
  · intro c
    exact ⟨rfl, rfl, fabricateLoop_eq_foldl c.image c.overlays⟩
  · intro c ov
    show fabricateLoop c.image (c.overlays ++ [ov]) = _
    rw [fabricateLoop_eq_foldl, List.foldl_append, List.foldl_cons,
      List.foldl_nil, ← fabricateLoop_eq_foldl]
    rfl

/-- BaseImage.resize (model.py 492-494): height = int((width /
self.final.width) * self.final.height).  Modelled in exact arithmetic:
(width / W) * H is the rational width * H / W, and Python's int()
truncates toward zero, which on these nonnegative values is the floor —
i.e. Nat division. -/
def BaseImage.resizeHeight (final_width final_height width : Nat) : Nat :=
  (width * final_height) / final_width

/-- Counterexample for C7: downscaling a 1280x720 image to width 3 gives
height int(1.6875) = 1, while the claimed round(3*720/1280) is 2. -/
theorem c7_counterexample :
    BaseImage.resizeHeight 1280 720 3 = 1
    ∧ round ((3 * 720 : ℚ) / 1280) = 2
    ∧ (1 : ℕ) ≠ 2 := by
  refine ⟨rfl, ?_, by decide⟩
  norm_num [round_eq]

/-- C7 amended: the width-constrained downscale computes the truncation
(floor) of new_width * orig_height / orig_width, not its rounding; the
claim's concrete 1280x720 -> width 500 case still yields 281 because
281.25 truncates to 281. -/
theorem c7_amended :
    (∀ final_width final_height width : Nat,
      BaseImage.resizeHeight final_width final_height width
        = ⌊(width : ℚ) / (final_width : ℚ) * (final_height : ℚ)⌋₊)
    ∧ BaseImage.resizeHeight 1280 720 500 = 281 := by
  constructor
  · intro W H w
    rcases Nat.eq_zero_or_pos W with hW | hW
    · subst hW
      simp [BaseImage.resizeHeight]
    · rw [div_mul_eq_mul_div, BaseImage.resizeHeight]
      rw [show ((w : ℚ) * (H : ℚ)) = ((w * H : ℕ) : ℚ) by push_cast; ring]
      rw [Nat.floor_div_nat, Nat.floor_natCast]
  · rfl

/-- Counterexample for C8: with the box argument omitted, the canvas-level
BaseImage.write helper uses the zero box ((0,0),(0,0)) — not the full
raster of a 200x50 base image — and an align="right" write of a 40x20
text lands at (-40, -10) instead of the full-raster origin (160, 15). -/
theorem c8_counterexample :
    BaseImage.writeBox 200 50 none = ((0, 0), (0, 0))
    ∧ BaseImage.writeBox 200 50 none ≠ Component.writeBox 200 50 none
    ∧ writeOrigin (BaseImage.writeBox 200 50 none) 40 20 "right" = (-40, -10)
    ∧ writeOrigin (Component.writeBox 200 50 none) 40 20 "right" = (160, 15) := by
  exact ⟨rfl, by decide, by decide, by decide⟩

/-- C8 amended: only Component.write defaults an omitted box to the full
target raster ((0,0),(width,height)); the canvas-level BaseImage.write
helper defaults it to the literal ((0,0),(0,0)).  An explicitly supplied
box is used as is by both. -/
theorem c8_amended :
    ∀ w h : Nat,
      Component.writeBox w h none = ((0, 0), ((w : Int), (h : Int)))
      ∧ BaseImage.writeBox w h none = ((0, 0), (0, 0))
      ∧ ∀ b : TextBox,
          Component.writeBox w h (some b) = b
          ∧ BaseImage.writeBox w h (some b) = b := by
  intro w h
  exact ⟨rfl, rfl, fun b => ⟨rfl, rfl⟩⟩

/-- A loaded truetype font handle (ImageFont.truetype(path, size)). -/
structure FontHandle where
  path : String
  size : Nat
deriving DecidableEq, Repr

/-- The outcome of running a piece of Python code: a normal value, or an
uncaught exception (modelled by its exception text). -/
inductive PyOutcome (α : Type) where
  | ok (v : α)
  | raised (e : String)
deriving DecidableEq, Repr

/-- The value slot of a (value, error) asset-load pair: the loaded object,
or None on failure. -/
def loadVal {α : Type} : Except String α → Option α
  | .ok v => some v
  | .error _ => none

/-- The error slot of a (value, error) asset-load pair: None on success,
the exception on failure. -/
def loadErr {α : Type} : Except String α → Option String
  | .ok _ => none
  | .error e => some e

/-- The BaseImage object state (model.py BaseImage): font handle and
carried error, the canvas, the pending component list, and the flattened
output (None until build has run). -/
structure BaseImageState where
  font : Option FontHandle
  error : Option String
  bg : Background
  components : List Component
  final : Option PILImage
deriving DecidableEq, Repr

/-- BaseImage.__init__ (model.py 396-401): self.font, self.error =
self.asset.font(default_font_size); self.bg = bg; then the annotated
assignment self.error: Optional[Exception] = None overwrites the recorded
font-load error with None before anything can read it. -/
def BaseImage.init (fontLoad : Except String FontHandle) (bg : Background) :
    BaseImageState :=
  { font := loadVal fontLoad, error := none, bg := bg,
    components := [], final := none }

/-- BaseImage.build (model.py 482-486): move every pending component into
the canvas's overlay list, flatten, store the result in self.final, and
clear the pending list. -/
def BaseImage.build (st : BaseImageState) : BaseImageState :=
  let bg' := st.components.foldl Background.add_overlay st.bg
  { st with bg := bg', final := some (bg'.fabricate).1, components := [] }

/-- self.final.save(output, format="PNG"): the PNG byte stream of a
raster, modelled as the PNG signature followed by the dimensions and the
raw samples (never empty: it starts with the eight signature bytes). -/
def pngEncode (img : PILImage) : List Nat :=
  137 :: 80 :: 78 :: 71 :: 13 :: 10 :: 26 :: 10 :: img.width :: img.height ::
    img.pixels.foldr (fun p acc => p.r :: p.g :: p.b :: p.a :: acc) []

/-- BaseImage.bytes (model.py 496-502): if self.final is None, return
Exception("Image not built"); otherwise serialize the flattened raster to
PNG and return the bytes. -/
def BaseImage.bytes (st : BaseImageState) : Except String (List Nat) :=
  match st.final with
  | none => .error "Image not built"
  | some img => .ok (pngEncode img)

/-- C9: requesting the serialized bytes before build has produced the
flattened raster returns the explicit error "Image not built"; whenever
bytes succeeds the output is nonempty and the flattened raster was
present; and build always stores the flatten of the canvas extended with
the pending components. -/
theorem c9_bytes_contract :
    ∀ st : BaseImageState,
      (st.final = none → BaseImage.bytes st = .error "Image not built")
      ∧ (∀ b : List Nat, BaseImage.bytes st = .ok b →
          st.final ≠ none ∧ b ≠ [])
      ∧ (BaseImage.build st).final
          = some ((st.components.foldl Background.add_overlay st.bg).fabricate).1 := by
  intro st
  refine ⟨fun h => ?_, fun b hb => ?_, rfl⟩
  · rw [BaseImage.bytes, h]
  · cases hf : st.final with
    | none =>
      rw [BaseImage.bytes, hf] at hb
      exact absurd hb (by simp)
    | some img =>
      rw [BaseImage.bytes, hf] at hb
      refine ⟨by simp [hf], ?_⟩
      cases hb
      simp [pngEncode]

/-- Witness for C9: a concrete not-yet-built state is rejected with the
explicit "Image not built" error. -/
theorem c9_bytes_contract_witness :
    BaseImage.bytes
      (BaseImage.init (.ok ⟨"lilitaone-regular.ttf", 30⟩)
        ⟨newRGBA 2 2, 2, 2, "untitled", []⟩)
      = .error "Image not built" :=
  (c9_bytes_contract
    (BaseImage.init (.ok ⟨"lilitaone-regular.ttf", 30⟩)
      ⟨newRGBA 2 2, 2, 2, "untitled", []⟩)).1 rfl

/-- A nearest-neighbour model of img.resize((w, h), LANCZOS): the exact
resampling kernel of the raster library is irrelevant to the claims; what
matters is that the buffer is replaced by one of exactly the requested
dimensions derived from the source buffer. -/
def resizeImg (img : PILImage) (w h : Nat) : PILImage :=
  { img with
    width := w
    height := h
    pixels := (List.range (w * h)).map (fun i =>
      let x := i % w
      let y := i / w
      img.pixels.getD ((y * img.height / h) * img.width + x * img.width / w)
        ⟨0, 0, 0, 0⟩) }

/-- The expression bg.copy() or Image.new("RGBA", (width or 1920, height
or 1080), (0, 0, 0, 0)) of Background.__init__ (model.py 354-356):
bg.copy() is evaluated first and raises AttributeError when bg is None; a
PIL Image defines neither a length nor a truth value, so a provided image
is always truthy and the blank-canvas alternative is never selected. -/
def copyOrBlank (bg : Option PILImage) (width height : Option Nat) :
    PyOutcome PILImage :=
  match bg with
  | none => .raised "AttributeError"
  | some b =>
    let blank := newRGBA (width.getD 1920) (height.getD 1080)
    .ok b

/-- Background.__init__ (model.py 346-363): the base image from
copyOrBlank, then — if width or height was given — a resize to
(width, height), which raises TypeError when only one of the two is
given (the other is None inside the size tuple); finally the dimensions
are read back from the image. -/
def Background.init (width height : Option Nat) (bg : Option PILImage)
    (name : String) : PyOutcome Background :=
  match copyOrBlank bg width height with
  | .raised e => .raised e
  | .ok img0 =>
    match width, height with
    | none, none => .ok ⟨img0, img0.width, img0.height, name, []⟩
    | some w, some h =>
      let r := resizeImg img0 w h
      .ok ⟨r, r.width, r.height, name, []⟩
    | some _, none => .raised "TypeError"
    | none, some _ => .raised "TypeError"

/-- C10: for every width/height argument pair, constructing a Background
with bg=None raises (bg.copy() is evaluated before the blank-canvas
alternative), and with a provided base raster the construction either
raises on a half-specified size or yields a canvas whose image is the
provided raster (possibly resized) — never the transparent fallback
canvas, which is unreachable. -/
theorem c10_background_requires_base :
    ∀ (width height : Option Nat) (name : String),
      Background.init width height none name = .raised "AttributeError"
      ∧ ∀ b : PILImage,
          copyOrBlank (some b) width height = .ok b
          ∧ (Background.init width height (some b) name = .raised "TypeError"
             ∨ ∃ c : Background,
                Background.init width height (some b) name = .ok c
                ∧ (c.image = b
                   ∨ ∃ w h : Nat, width = some w ∧ height = some h
                      ∧ c.image = resizeImg b w h)) := by
  intro width height name
  refine ⟨by cases width <;> cases height <;> rfl, fun b => ⟨rfl, ?_⟩⟩
  cases width with
  | none =>
    cases height with
    | none => exact Or.inr ⟨_, rfl, Or.inl rfl⟩
    | some h => exact Or.inl rfl
  | some w =>
    cases height with
    | none => exact Or.inl rfl
    | some h => exact Or.inr ⟨_, rfl, Or.inr ⟨w, h, rfl, rfl, rfl⟩⟩

/-- The results of the eleven sequential asset/font/icon loads performed
by Match.__init__ (match.py 24-38), in source order: each is a
(value, error) pair, modelled as an Except. -/
structure MatchLoads where
  bg : Except String PILImage
  fg : Except String PILImage
  vs : Except String PILImage
  vs_line : Except String PILImage
  pvpd : Except String PILImage
  pvpu : Except String PILImage
  left_name : Except String PILImage
  right_name : Except String PILImage
  pi1 : Except String PILImage
  pi2 : Except String PILImage
  font : Except String FontHandle
deriving Repr

/-- The state of a constructed Match object: the per-load values (None on
a failed load), the single carried error slot, and the assembled base
raster. -/
structure MatchState where
  vs : Option PILImage
  vs_line : Option PILImage
  pvpd : Option PILImage
  pvpu : Option PILImage
  left_name : Option PILImage
  right_name : Option PILImage
  pi1 : Option PILImage
  pi2 : Option PILImage
  font : Option FontHandle
  error : Option String
  bg : PILImage
deriving DecidableEq, Repr

/-- Match.__init__ (match.py 24-41): every load is unpacked into its value
and into the same self.error slot, so each assignment overwrites the
previous one and the slot ends up holding only the last (font) load's
error.  After the loads, self.bg = Image.new("RGBA", bg.size) raises
AttributeError when the background load returned None, and
self.bg.paste(im=fg, box=(0, 0)) raises when the foreground is None. -/
def matchInit (L : MatchLoads) : PyOutcome MatchState :=
  match loadVal L.bg with
  | none => .raised "AttributeError: NoneType has no attribute size"
  | some bgImg =>
    match loadVal L.fg with
    | none => .raised "ValueError: paste with im=None"
    | some fgImg =>
      .ok
        { vs := loadVal L.vs
          vs_line := loadVal L.vs_line
          pvpd := loadVal L.pvpd
          pvpu := loadVal L.pvpu
          left_name := loadVal L.left_name
          right_name := loadVal L.right_name
          pi1 := loadVal L.pi1
          pi2 := loadVal L.pi2
          font := loadVal L.font
          error := loadErr L.font
          bg := pastePlain (newRGBA bgImg.width bgImg.height) fgImg 0 0 }

/-- The carried error of a Match construction outcome: None when the
construction raised, otherwise the object's self.error slot. -/
def matchInitError : PyOutcome MatchState → Option (Option String)
  | .ok st => some st.error
  | .raised _ => none

/-- What RequestMatch.respond returns: the PNG bytes of a rendered image,
the carried error value, or an uncaught exception. -/
inductive RespondResult where
  | png (b : List Nat)
  | err (e : String)
  | raised (e : String)
deriving DecidableEq, Repr

/-- RequestMatch.respond (match.py 13-19): construct the Match, return
image.error when it is set, else run preset / build / bytes.  preset
(match.py 103-126) resizes or copies vs, vs_line, pi1, pi2, left_name and
right_name and raises AttributeError if any of them is None; build
(match.py 128-131) then calls self.bg.build(), but the model.py Background
class defines no build method, so the happy path raises AttributeError
before any bytes are produced. -/
def respond (L : MatchLoads) : RespondResult :=
  match matchInit L with
  | .raised e => .raised e
  | .ok st =>
    match st.error with
    | some e => .err e
    | none =>
      if st.vs.isSome && st.vs_line.isSome && st.pi1.isSome && st.pi2.isSome
          && st.left_name.isSome && st.right_name.isSome then
        .raised "AttributeError: Background has no attribute build"
      else
        .raised "AttributeError: NoneType"

/-- A small concrete raster standing for a successfully loaded asset. -/
def goodImg : PILImage := mkImg 4 3

/-- The claim's failing input: every load succeeds except the PVP_D.png
asset (match.py 32), which reports FileNotFoundError. -/
def pvpdFailLoads : MatchLoads :=
  { bg := .ok goodImg, fg := .ok goodImg, vs := .ok goodImg,
    vs_line := .ok goodImg, pvpd := .error "FileNotFoundError: PVP_D.png",
    pvpu := .ok goodImg, left_name := .ok goodImg, right_name := .ok goodImg,
    pi1 := .ok goodImg, pi2 := .ok goodImg,
    font := .ok ⟨"lilitaone-regular.ttf", 30⟩ }

/-- C1 (code bug): with the PVP_D.png load failing and every other load
succeeding, the constructed Match carries error = None (the failure was
overwritten by the later load assignments), respond sails past its error
check and raises instead of returning the carried error, and
BaseImage.__init__ unconditionally resets its error slot to None even
when its font load failed. -/
theorem c1_error_overwritten :
    pvpdFailLoads.pvpd = Except.error "FileNotFoundError: PVP_D.png"
    ∧ matchInitError (matchInit pvpdFailLoads) = some none
    ∧ respond pvpdFailLoads
        = .raised "AttributeError: Background has no attribute build"
    ∧ ∀ (f : Except String FontHandle) (bgc : Background),
        (BaseImage.init f bgc).error = none := by
  exact ⟨rfl, rfl, rfl, fun f bgc => rfl⟩

/-- model.py Asset.icon (149-166): on a successful fetch and decode the
image is returned with no error; on any HTTP or decode failure every
except branch evaluates Asset.get_image("28000000.png") — the instance
method called on the class, which binds the filename to self and leaves
the filename parameter missing — raising TypeError inside the handler, so
the fallback raster is never produced. -/
def asset_icon (fetch : Except String PILImage) :
    PyOutcome (Option PILImage × Option String) :=
  match fetch with
  | .ok img => .ok (some img, none)
  | .error _ =>
    .raised "TypeError: get_image missing 1 required positional argument"

/-- utils.py Asset.icon (79-97), the loader the Match card actually uses:
on httpx.HTTPStatusError or any other failure it returns (None, e),
propagating the network error upward with no fallback raster. -/
def utils_asset_icon (fetch : Except String PILImage) :
    PyOutcome (Option PILImage × Option String) :=
  match fetch with
  | .ok img => .ok (some img, none)
  | .error e => .ok (none, some e)

/-- C2 (code bug): a player-icon fetch failing with HTTP 404 does not
yield a local fallback raster with no error on either code path —
model.py's Asset.icon raises TypeError out of its own except handler, and
utils.py's Asset.icon returns no image together with the propagated
network error. -/
theorem c2_icon_no_fallback :
    asset_icon (.error "HTTPStatusError: 404")
      = .raised "TypeError: get_image missing 1 required positional argument"
    ∧ utils_asset_icon (.error "HTTPStatusError: 404")
      = .ok (none, some "HTTPStatusError: 404")
    ∧ ∀ img : PILImage,
        asset_icon (.ok img) = .ok (some img, none)
        ∧ utils_asset_icon (.ok img) = .ok (some img, none) := by
  exact ⟨rfl, rfl, fun img => ⟨rfl, rfl⟩⟩
